import Mathlib

/-!
Verification of the control logic of `adaptive_lighting_pro`
(`custom_components/adaptive_lighting_pro/__init__.py` and `sensor.py`),
as a shallow embedding in Lean 4.

Modelling conventions:
* Home Assistant entity states are strings (`"on"`, `"off"`, ...), kept as `String`.
* Timestamps are integers (minutes); `timedelta(days=1)` is `oneDay = 1440`,
  `timedelta(minutes=m)` is `+ m`.
* Python integers are `ℤ`.  The float expressions `int((b / 100) * 255)` and
  `int(1000000 / ct)` are modelled by exact rational arithmetic followed by
  truncation toward zero, which for integer operands is `Int.tdiv` on the
  equivalent integer quotient.
* Sun elevation is `ℚ` (only compared against `0` and `60`); the real-valued
  factor computation of `_calculate_factors` (which uses the float power
  `** 1.5`) is embedded over `ℝ`.
* Fallible lookups (`hass.states.get`, `dict.get`) return `Option`.
-/

namespace ALP

/-- Brightness conversion from `async_apply_lighting`
(`brightness_255 = int((self._current_brightness / 100) * 255)`):
percentage to the 0-255 scale, truncated toward zero as Python `int()` does. -/
def brightness_255_of (pct : ℤ) : ℤ := Int.tdiv (pct * 255) 100

/-- Mireds conversion from `async_apply_lighting`
(`mireds = int(1000000 / self._current_color_temp) if self._current_color_temp > 0 else 370`). -/
def mireds_of (color_temp : ℤ) : ℤ :=
  if color_temp > 0 then Int.tdiv 1000000 color_temp else 370

/-- The mireds telemetry sensor, `ColorTempMiredsSensor.native_value` in `sensor.py`
(`return int(1000000 / ct) if ct > 0 else 0`). -/
def ColorTempMiredsSensor_native_value (current_color_temp : ℤ) : ℤ :=
  if current_color_temp > 0 then Int.tdiv 1000000 current_color_temp else 0

/-- Spec-side conversion (refinement comparison only), following the spec words
"percentage brightness → 0-255 scale by `round(pct/100×255)`". -/
def spec_round_brightness (pct : ℤ) : ℤ := round ((pct : ℚ) / 100 * 255)

/-- Spec-side conversion (refinement comparison only), following the spec words
"Kelvin → mireds by `round(1_000_000/K)`". -/
def spec_round_mireds (kelvin : ℤ) : ℤ := round ((1000000 : ℚ) / kelvin)

/-- The slice of a light's Home Assistant state that `async_apply_lighting` reads:
`state.state` and `state.attributes.get("supported_color_modes", [])`. -/
structure LightState where
  state : String
  supported_color_modes : List String
deriving DecidableEq

/-- The `service_data` dict built per light in `async_apply_lighting`:
`entity_id` and `transition` always present, `brightness` / `color_temp` optional. -/
structure ServiceData where
  entity_id : String
  transition : ℤ
  brightness : Option ℤ
  color_temp : Option ℤ
deriving DecidableEq

/-- Number of keys of the `service_data` dict (`len(service_data)`). -/
def ServiceData.size (sd : ServiceData) : ℕ :=
  2 + (if sd.brightness.isSome then 1 else 0) + (if sd.color_temp.isSome then 1 else 0)

/-- One entry of `self._last_applied`: the values most recently sent, with `None`
for a field whose adaptation toggle was off. -/
structure LastApplied where
  brightness : Option ℤ
  color_temp : Option ℤ
deriving DecidableEq

/-- Body of the per-light loop of `async_apply_lighting` (lines 682-718):
skip an absent or non-on light, include `brightness` when `adapt_brightness`,
include `color_temp` when `adapt_color_temp` and the light supports it, skip a
command carrying only `entity_id` and `transition`, and otherwise record
`LastApplied` keyed on the adaptation toggles.  Returns `none` when the light
is skipped (no command sent, no record written). -/
def applyToLight (light_id : String) (adapt_brightness adapt_color_temp : Bool)
    (brightness_255 mireds transition_cfg : ℤ) (instant : Bool)
    (state : Option LightState) : Option (ServiceData × LastApplied) :=
  match state with
  | none => none
  | some s =>
    if s.state ≠ "on" then none
    else
      let supports_ct : Bool := "color_temp" ∈ s.supported_color_modes
      let transition : ℤ := if instant then 0 else transition_cfg
      let sd : ServiceData :=
        { entity_id := light_id
          transition := transition
          brightness := if adapt_brightness then some brightness_255 else none
          color_temp := if adapt_color_temp && supports_ct then some mireds else none }
      if sd.size ≤ 2 then none
      else
        some (sd,
          { brightness := if adapt_brightness then some brightness_255 else none
            color_temp := if adapt_color_temp then some mireds else none })

/-- Controller fields read by `async_apply_lighting`. -/
structure ApplyConfig where
  enabled : Bool
  adapt_brightness : Bool
  adapt_color_temp : Bool
  current_brightness : ℤ
  current_color_temp : ℤ
  transition : ℤ
deriving DecidableEq

/-- `AdaptiveLightingController.async_apply_lighting` (lines 661-720): early
returns when disabled, when both adaptation toggles are off, or when the light
list is empty; otherwise converts the current values once and runs the
per-light loop.  The result lists, in order, each light actually sent to with
its outgoing command and the `LastApplied` record written for it. -/
def async_apply_lighting (cfg : ApplyConfig) (instant : Bool)
    (lights : List String) (states : String → Option LightState) :
    List (String × ServiceData × LastApplied) :=
  if cfg.enabled = false then []
  else if cfg.adapt_brightness = false ∧ cfg.adapt_color_temp = false then []
  else if lights = [] then []
  else
    let brightness_255 := brightness_255_of cfg.current_brightness
    let mireds := mireds_of cfg.current_color_temp
    lights.filterMap fun light_id =>
      (applyToLight light_id cfg.adapt_brightness cfg.adapt_color_temp
          brightness_255 mireds cfg.transition instant (states light_id)).map
        fun p => (light_id, p)

/-- Manual-override state of one controller: `self._manual_override` and
`self._manual_override_until`. -/
structure OverrideState where
  manual_override : Bool
  manual_override_until : Option ℤ
deriving DecidableEq

/-- The `manual_override` property (lines 284-291): if armed with an expiry and
`utcnow() > until`, clear both fields; then return the (possibly cleared)
armed flag together with the stored state after the read. -/
def manual_override_read (now : ℤ) (st : OverrideState) : Bool × OverrideState :=
  if st.manual_override && st.manual_override_until.isSome then
    match st.manual_override_until with
    | some u =>
      if now > u then (false, { manual_override := false, manual_override_until := none })
      else (st.manual_override, st)
    | none => (st.manual_override, st)
  else (st.manual_override, st)

/-- `async_set_manual_override` (lines 477-481): arm the flag and set the expiry
to `utcnow() + timedelta(minutes=duration_minutes)`; time is counted in minutes. -/
def async_set_manual_override (now duration_minutes : ℤ) : OverrideState :=
  { manual_override := true, manual_override_until := some (now + duration_minutes) }

/-- The slice of an observed light state that the `light_changed` callback reads:
`state`, the `brightness` and `color_temp` attributes, and whether
`new_state.context.parent_id` is set (internal causation marker). -/
structure ObservedState where
  state : String
  brightness : Option ℤ
  color_temp : Option ℤ
  context_parent_id : Bool
deriving DecidableEq

/-- Python `x or 0` applied to a possibly-missing integer attribute. -/
def orZero (v : Option ℤ) : ℤ := v.getD 0

/-- Outcome of one invocation of the `light_changed` callback. -/
inductive LightAction where
  /-- The callback returned without scheduling anything. -/
  | noAction : LightAction
  /-- The callback scheduled a delayed `async_apply_lighting` (light turned on). -/
  | applyLighting : LightAction
  /-- The callback scheduled `async_set_manual_override` with this timeout. -/
  | armOverride (timeout : ℤ) : LightAction
deriving DecidableEq

/-- The `light_changed` callback (lines 394-446): bail out when disabled or the
new state is absent; schedule an apply when the light transitions to on;
otherwise, with override detection enabled, a previous state present, no
internal causation marker, the light on before and after, and brightness or
color-temp changed, compare against the `LastApplied` record (an absent record
is the falsy empty dict) and arm the override unless both observed values sit
within the tolerance bands (`< 5` brightness, `< 10` mireds, missing values
coalesced to 0). -/
def light_changed (enabled detect_override : Bool) (override_timeout : ℤ)
    (old_state new_state : Option ObservedState)
    (expected : Option LastApplied) : LightAction :=
  if enabled = false then .noAction
  else
    match new_state with
    | none => .noAction
    | some ns =>
      let old_on : Bool := match old_state with
        | some os => os.state == "on"
        | none => false
      if ns.state == "on" && !old_on then .applyLighting
      else if !detect_override || old_state.isNone then .noAction
      else if ns.context_parent_id then .noAction
      else
        match old_state with
        | none => .noAction
        | some os =>
          if ns.state == "on" && os.state == "on" then
            if ns.brightness != os.brightness || ns.color_temp != os.color_temp then
              match expected with
              | none => .noAction
              | some exp =>
                if |orZero ns.brightness - orZero exp.brightness| < 5 ∧
                    |orZero ns.color_temp - orZero exp.color_temp| < 10 then .noAction
                else .armOverride override_timeout
            else .noAction
          else .noAction

/-- One sync group's shared record in `hass.data[DOMAIN][SYNC_GROUPS]`:
the shared target plus the member list in join order (members as ids). -/
structure SyncData where
  brightness : ℤ
  color_temp : ℤ
  controllers : List ℕ
deriving DecidableEq

/-- Observable outcome of one `_async_update` tick that was not skipped. -/
structure UpdateResult where
  current_brightness : ℤ
  current_color_temp : ℤ
  engine_invoked : Bool
  sync : Option SyncData
deriving DecidableEq

/-- `_async_update` (lines 629-659): skip when disabled or overridden; follow
the sync group when it exists, has a first member other than this controller,
and has published brightness `> 0`; otherwise invoke `_calculate_values`
(abstracted as the `computed` pair) and publish into the group when configured.
`sync_group` is whether `self._sync_group` names a group, `sync` the group's
record if present.  Returns `none` when the tick early-returned. -/
def async_update (enabled manual_override sync_group : Bool) (self_id : ℕ)
    (sync : Option SyncData) (computed : ℤ × ℤ) : Option UpdateResult :=
  if enabled = false ∨ manual_override = true then none
  else
    let use_sync : Bool :=
      sync_group && (match sync with
        | some sd =>
            !sd.controllers.isEmpty && (sd.controllers.head? != some self_id) &&
              decide (0 < sd.brightness)
        | none => false)
    if use_sync then
      match sync with
      | some sd =>
          some { current_brightness := sd.brightness, current_color_temp := sd.color_temp
                 engine_invoked := false, sync := sync }
      | none => none
    else
      let updated_sync : Option SyncData :=
        if sync_group then
          match sync with
          | some sd => some { sd with brightness := computed.1, color_temp := computed.2 }
          | none => none
        else sync
      some { current_brightness := computed.1, current_color_temp := computed.2
             engine_invoked := true, sync := updated_sync }

/-- One day, with timestamps counted in minutes. -/
def oneDay : ℤ := 1440

/-- The normalization part of `_get_sun_data` (lines 522-549), after the raw
attributes are parsed: a future next-sunrise is moved back a day; a future
next-sunset with elevation `≤ 0` is moved back a day, else a sunset earlier
than the (already adjusted) sunrise is moved forward a day; the configured
offsets are added last. -/
def get_sun_data (now : ℤ) (elevation : ℚ) (next_rising next_setting : Option ℤ)
    (sunrise_offset sunset_offset : ℤ) : Option ℤ × Option ℤ × ℚ :=
  let sunrise : Option ℤ :=
    match next_rising with
    | some r => if r > now then some (r - oneDay) else some r
    | none => none
  let sunset : Option ℤ :=
    match next_setting with
    | some s =>
      if s > now ∧ elevation ≤ 0 then some (s - oneDay)
      else
        match sunrise with
        | some r => if s < r then some (s + oneDay) else some s
        | none => some s
    | none => none
  (sunrise.map (· + sunrise_offset), sunset.map (· + sunset_offset), elevation)

/-- `_calculate_factors` (lines 551-594): returns
`(circadian, solar, time_based, day_progress)`.  With the sun down
(`elevation ≤ 0`) all three factors are `0` and day progress is `0` before the
sunrise reference, else `1`.  Otherwise day progress interpolates `now` between
sunrise and sunset, circadian is the bell curve `(2p) ** 1.5` / `(2(1-p)) ** 1.5`
(the float power embedded as a real power, hence the real-valued result),
solar is `elevation / 60` capped at `1`, and time_based is the linear ramp. -/
noncomputable def calculate_factors (now : ℤ) (sunrise sunset : Option ℤ)
    (elevation : ℚ) : ℝ × ℝ × ℝ × ℝ :=
  if elevation ≤ 0 then
    let day_progress : ℝ :=
      match sunrise with
      | some r => if now < r then 0 else 1
      | none => 1
    (0, 0, 0, day_progress)
  else
    let day_progress : ℚ :=
      match sunrise, sunset with
      | some r, some s =>
        if r < now ∧ now < s then max 0 (min 1 ((now - r : ℚ) / (s - r)))
        else if now < r then 0 else 1
      | some r, none => if now < r then 0 else 1
      | none, _ => 1
    let circadian : ℝ :=
      if day_progress ≤ 1 / 2 then (2 * (day_progress : ℝ)) ^ (1.5 : ℝ)
      else (2 * (1 - (day_progress : ℝ))) ^ (1.5 : ℝ)
    let solar : ℝ := if elevation ≥ 60 then 1 else (elevation : ℝ) / 60
    let time_based : ℝ :=
      if day_progress ≤ 1 / 2 then 2 * (day_progress : ℝ)
      else 2 * (1 - (day_progress : ℝ))
    (circadian, solar, time_based, (day_progress : ℝ))

/-- Mode strings from `const.py`. -/
def MODE_CIRCADIAN : String := "circadian"

/-- Mode string `solar` from `const.py`. -/
def MODE_SOLAR : String := "solar"

/-- Mode string `time_based` from `const.py`. -/
def MODE_TIME_BASED : String := "time_based"

/-- Python `int()` truncation toward zero of an exact rational. -/
def pyInt (q : ℚ) : ℤ := Int.tdiv q.num q.den

/-- The output part of `_calculate_values` (lines 605-627), taking the factors
computed by `_calculate_factors` as inputs (here over `ℚ`, since the claimed
properties quantify over arbitrary factor values): select the driving factor
per mode string (anything other than `solar` / `time_based` falls back to
circadian), return the configured sleep values verbatim when sleep mode is
active, and otherwise map the factor into the configured min/max range,
truncating as Python `int()` does. -/
def calculate_values (brightness_mode color_temp_mode : String) (sleep_mode : Bool)
    (sleep_brightness sleep_color_temp : ℤ)
    (min_brightness max_brightness min_color_temp max_color_temp : ℤ)
    (circadian solar time_based : ℚ) : ℤ × ℤ :=
  let b_factor : ℚ :=
    if brightness_mode = MODE_SOLAR then solar
    else if brightness_mode = MODE_TIME_BASED then time_based
    else circadian
  let ct_factor : ℚ :=
    if color_temp_mode = MODE_SOLAR then solar
    else if color_temp_mode = MODE_TIME_BASED then time_based
    else circadian
  if sleep_mode then (sleep_brightness, sleep_color_temp)
  else
    (pyInt ((min_brightness : ℚ) + ((max_brightness : ℚ) - (min_brightness : ℚ)) * b_factor),
     pyInt ((min_color_temp : ℚ) + ((max_color_temp : ℚ) - (min_color_temp : ℚ)) * ct_factor))

/-- Helper: an `if c then none else some x` that produced a value produced `x`. -/
theorem ite_none_some_eq {α : Type} (c : Prop) [Decidable c] (x p : α)
    (h : (if c then none else some x) = some p) : x = p := by
  split at h
  · exact absurd h (by simp)
  · exact Option.some_inj.mp h

/-- C1, counterexample.  With the current color temperature 0, color adaptation
enabled and an on, color-temp-capable light, `async_apply_lighting` DOES send a
`color_temp` field (the 370-mired fallback), and the mireds telemetry sensor
reports 0, not 370 — both halves of the claim fail on the code. -/
theorem mireds_zero_fallback_counterexample :
    ALP.async_apply_lighting ⟨true, true, true, 50, 0, 3⟩ false ["light.kitchen"]
        (fun _ => some ⟨"on", ["color_temp"]⟩) =
      [("light.kitchen", ⟨"light.kitchen", 3, some 127, some 370⟩, ⟨some 127, some 370⟩)] ∧
    ALP.ColorTempMiredsSensor_native_value 0 = 0 := by
  constructor <;> decide

/-- C1, amended.  When the current color temperature is 0, the apply path falls
back to 370 mireds and that value IS sent as the `color_temp` field to every
on, color-temp-capable light whenever color adaptation is enabled; the mireds
telemetry sensor reports 0, not 370. -/
theorem mireds_zero_fallback_sent_and_telemetry (light_id : String)
    (adapt_brightness : Bool) (b τ : ℤ) (instant : Bool) (s : ALP.LightState)
    (hon : s.state = "on") (hct : "color_temp" ∈ s.supported_color_modes) :
    ALP.mireds_of 0 = 370 ∧
    ALP.ColorTempMiredsSensor_native_value 0 = 0 ∧
    ALP.applyToLight light_id adapt_brightness true b (ALP.mireds_of 0) τ instant (some s) =
      some ({ entity_id := light_id, transition := if instant then 0 else τ
              brightness := if adapt_brightness then some b else none
              color_temp := some 370 },
            { brightness := if adapt_brightness then some b else none
              color_temp := some 370 }) := by
  refine ⟨by decide, by decide, ?_⟩
  simp only [ALP.applyToLight, ALP.mireds_of, ALP.ServiceData.size, hon]
  have hct' : ("color_temp" ∈ s.supported_color_modes : Bool) = true := by
    simpa using hct
  cases adapt_brightness <;> cases instant <;> simp [hct']

/-- C1 witness. -/
theorem mireds_zero_fallback_sent_and_telemetry_witness :
    ALP.mireds_of 0 = 370 ∧
    ALP.ColorTempMiredsSensor_native_value 0 = 0 ∧
    ALP.applyToLight "light.kitchen" true true 127 (ALP.mireds_of 0) 3 false
        (some ⟨"on", ["color_temp"]⟩) =
      some ({ entity_id := "light.kitchen", transition := if false then 0 else 3
              brightness := if true then some 127 else none
              color_temp := some 370 },
            { brightness := if true then some 127 else none
              color_temp := some 370 }) :=
  mireds_zero_fallback_sent_and_telemetry "light.kitchen" true 127 3 false
    ⟨"on", ["color_temp"]⟩ rfl (by decide)

/-- C2, counterexample.  The apply path truncates both conversions where the
claim requires rounding to nearest: brightness 1 % gives 2 (not `round 2.55 = 3`)
and 6000 K gives 166 mireds (not `round 166.67 = 167`). -/
theorem conversion_rounding_counterexample :
    ALP.brightness_255_of 1 = 2 ∧ ALP.spec_round_brightness 1 = 3 ∧
    ALP.mireds_of 6000 = 166 ∧ ALP.spec_round_mireds 6000 = 167 := by
  refine ⟨by decide, ?_, by decide, ?_⟩
  · unfold ALP.spec_round_brightness
    rw [round_eq]
    norm_num
  · unfold ALP.spec_round_mireds
    rw [round_eq]
    norm_num

/-- C2, amended.  For every nonnegative brightness percentage and every positive
Kelvin value, the apply path converts by truncation (floor, both quotients being
nonnegative): `int(pct/100*255)` and `int(1_000_000/K)`, not rounding to
nearest. -/
theorem conversion_truncates (pct K : ℤ) (hp : 0 ≤ pct) (hK : 0 < K) :
    ALP.brightness_255_of pct = ⌊(pct : ℚ) / 100 * 255⌋ ∧
    ALP.mireds_of K = ⌊(1000000 : ℚ) / (K : ℚ)⌋ := by
  constructor
  · unfold ALP.brightness_255_of
    have h : (pct : ℚ) / 100 * 255 = ((pct * 255 : ℤ) : ℚ) / ((100 : ℕ) : ℚ) := by
      push_cast; ring
    rw [h, Rat.floor_intCast_div_natCast,
      Int.tdiv_eq_ediv (by positivity) (by norm_num)]
    norm_num
  · unfold ALP.mireds_of
    rw [if_pos hK]
    have hKn : K = ((K.toNat : ℕ) : ℤ) := (Int.toNat_of_nonneg hK.le).symm
    have hc : ((K.toNat : ℕ) : ℚ) = (K : ℚ) := by exact_mod_cast hKn.symm
    have h : (1000000 : ℚ) / (K : ℚ) = ((1000000 : ℤ) : ℚ) / ((K.toNat : ℕ) : ℚ) := by
      rw [hc]; norm_num
    rw [h, Rat.floor_intCast_div_natCast, ← hKn,
      Int.tdiv_eq_ediv (by norm_num) hK.le]

/-- C2 witness. -/
theorem conversion_truncates_witness :
    ALP.brightness_255_of 1 = ⌊((1 : ℤ) : ℚ) / 100 * 255⌋ ∧
    ALP.mireds_of 6000 = ⌊(1000000 : ℚ) / ((6000 : ℤ) : ℚ)⌋ :=
  conversion_truncates 1 6000 (by decide) (by decide)

/-- C3, counterexample.  An on light without color-temp capability, with both
adaptation toggles on: the outgoing command carries no `color_temp` field, yet
the `LastApplied` record stores the mireds value — not `none` — for it. -/
theorem last_applied_capability_counterexample :
    ALP.applyToLight "light.desk" true true 127 333 3 false (some ⟨"on", []⟩) =
      some ({ entity_id := "light.desk", transition := 3
              brightness := some 127, color_temp := none },
            { brightness := some 127, color_temp := some 333 }) := by
  decide

/-- C3, amended.  For every light actually sent to, the `LastApplied` record is
keyed on the adaptation toggles alone: brightness is recorded iff
`adapt_brightness`, color-temp iff `adapt_color_temp` — even when the color
field was omitted from the command because the light lacks the capability.
The brightness field of the command always coincides with the record; lights
skipped (absent, not on, or with no adapted field in the command) get no
command and no record. -/
theorem last_applied_records_follow_toggles (light_id : String) (aB aCT : Bool)
    (b m τ : ℤ) (instant : Bool) :
    (∀ st p, ALP.applyToLight light_id aB aCT b m τ instant st = some p →
      p.2 = { brightness := if aB then some b else none
              color_temp := if aCT then some m else none } ∧
      p.1.brightness = p.2.brightness) ∧
    (∀ s : ALP.LightState, s.state ≠ "on" →
      ALP.applyToLight light_id aB aCT b m τ instant (some s) = none) ∧
    ALP.applyToLight light_id aB aCT b m τ instant none = none ∧
    (∀ s : ALP.LightState, aB = false →
      (aCT = false ∨ "color_temp" ∉ s.supported_color_modes) →
      ALP.applyToLight light_id aB aCT b m τ instant (some s) = none) := by
  refine ⟨?_, ?_, rfl, ?_⟩
  · rintro (_ | st) p h
    · exact absurd h (by simp [ALP.applyToLight])
    · simp only [ALP.applyToLight] at h
      split at h
      · exact absurd h (by simp)
      · have h2 := ite_none_some_eq _ _ _ h
        subst h2
        exact ⟨rfl, rfl⟩
  · intro s hs
    simp [ALP.applyToLight, hs]
  · intro s hB hCT
    subst hB
    simp only [ALP.applyToLight, ALP.ServiceData.size]
    split
    · rfl
    · rcases hCT with hCT | hCT
      · subst hCT; simp
      · have : ("color_temp" ∈ s.supported_color_modes : Bool) = false := by
          simpa using hCT
        simp [this]

/-- C3 witness. -/
theorem last_applied_records_follow_toggles_witness :
    ({ brightness := some 127, color_temp := some 333 } : ALP.LastApplied) =
      { brightness := if true then some 127 else none
        color_temp := if true then some 333 else none } ∧
    (({ entity_id := "light.desk", transition := 3
        brightness := some 127, color_temp := none } : ALP.ServiceData)).brightness =
      ({ brightness := some 127, color_temp := some 333 } : ALP.LastApplied).brightness :=
  (last_applied_records_follow_toggles "light.desk" true true 127 333 3 false).1
    (some ⟨"on", []⟩)
    (⟨"light.desk", 3, some 127, none⟩, ⟨some 127, some 333⟩) (by decide)

/-- C4, confirmed.  For an observed change with the light on before and after,
detection enabled, no internal causation marker, brightness or color-temp
changed, and a `LastApplied` record present, the change is attributed to the
controller (no action) exactly when both observed values are within the
tolerance bands (`< 5` on the 0-255 brightness scale and `< 10` mireds);
otherwise the callback arms the manual override for the configured timeout. -/
theorem override_tolerance_bands (timeout : ℤ) (os ns : ALP.ObservedState)
    (exp : ALP.LastApplied)
    (hns : ns.state = "on") (hos : os.state = "on") (hctx : ns.context_parent_id = false)
    (hdiff : ns.brightness ≠ os.brightness ∨ ns.color_temp ≠ os.color_temp) :
    ALP.light_changed true true timeout (some os) (some ns) (some exp) =
      (if |ALP.orZero ns.brightness - ALP.orZero exp.brightness| < 5 ∧
          |ALP.orZero ns.color_temp - ALP.orZero exp.color_temp| < 10
       then ALP.LightAction.noAction else ALP.LightAction.armOverride timeout) := by
  rcases hdiff with hd | hd <;>
    simp [ALP.light_changed, hns, hos, hctx, hd]

/-- C4 witness (the arming case of the spec's worked example: sent 200,
observed 210, brightness differs by 10 ≥ 5). -/
theorem override_tolerance_bands_witness :
    ALP.light_changed true true 30 (some ⟨"on", some 200, some 300, false⟩)
      (some ⟨"on", some 210, some 300, false⟩) (some ⟨some 200, some 300⟩) =
      ALP.LightAction.armOverride 30 := by
  have h := override_tolerance_bands 30 ⟨"on", some 200, some 300, false⟩
    ⟨"on", some 210, some 300, false⟩ ⟨some 200, some 300⟩ rfl rfl rfl
    (Or.inl (by decide))
  rw [if_neg (by decide)] at h
  exact h

/-- C5, confirmed.  After arming for `d` minutes at `T0`, merely reading the
override flag strictly after `T0 + d` returns false and clears the stored
window; reading at or before the expiry returns true and leaves it armed. -/
theorem override_expiry_lazy_clear (T0 d t : ℤ) :
    (T0 + d < t →
      ALP.manual_override_read t (ALP.async_set_manual_override T0 d) =
        (false, { manual_override := false, manual_override_until := none })) ∧
    (t ≤ T0 + d →
      ALP.manual_override_read t (ALP.async_set_manual_override T0 d) =
        (true, ALP.async_set_manual_override T0 d)) := by
  constructor
  · intro h
    simp [ALP.manual_override_read, ALP.async_set_manual_override, h]
  · intro h
    have h2 : ¬ (T0 + d < t) := not_lt.mpr h
    simp [ALP.manual_override_read, ALP.async_set_manual_override, h2]

/-- C5 witness: armed for 30 minutes at time 0, read at 31 and at 30. -/
theorem override_expiry_lazy_clear_witness :
    ALP.manual_override_read 31 (ALP.async_set_manual_override 0 30) =
      (false, { manual_override := false, manual_override_until := none }) ∧
    ALP.manual_override_read 30 (ALP.async_set_manual_override 0 30) =
      (true, ALP.async_set_manual_override 0 30) :=
  ⟨(override_expiry_lazy_clear 0 30 31).1 (by decide),
   (override_expiry_lazy_clear 0 30 30).2 (by decide)⟩

/-- C6, confirmed.  On a tick of an enabled, non-overridden controller that is a
member of its sync group: it follows (copies the shared target, does not invoke
the engine, leaves the group record unchanged) exactly when it is not the first
member and the shared brightness is positive; otherwise it computes its own
values and publishes them into the group's shared target. -/
theorem sync_follow_iff (self_id : ℕ) (sd : ALP.SyncData) (computed : ℤ × ℤ)
    (hmem : self_id ∈ sd.controllers) :
    ((sd.controllers.head? ≠ some self_id ∧ 0 < sd.brightness) →
      ALP.async_update true false true self_id (some sd) computed =
        some { current_brightness := sd.brightness, current_color_temp := sd.color_temp
               engine_invoked := false, sync := some sd }) ∧
    (¬ (sd.controllers.head? ≠ some self_id ∧ 0 < sd.brightness) →
      ALP.async_update true false true self_id (some sd) computed =
        some { current_brightness := computed.1, current_color_temp := computed.2
               engine_invoked := true
               sync := some { sd with brightness := computed.1
                                      color_temp := computed.2 } }) := by
  have hne : sd.controllers ≠ [] := List.ne_nil_of_mem hmem
  have hni : sd.controllers.isEmpty = false := by
    simpa [List.isEmpty_iff] using hne
  constructor
  · rintro ⟨h1, h2⟩
    simp [ALP.async_update, hni, h1, h2]
  · intro h
    rw [not_and_or, not_ne_iff, not_lt] at h
    rcases h with h | h
    · simp [ALP.async_update, h]
    · have h2 : ¬ (0 < sd.brightness) := not_lt.mpr h
      simp [ALP.async_update, h2]

/-- C6 witness: in group `[1, 2]`, member 2 follows a published target of 70;
member 1 (the leader) computes and publishes even though a target exists. -/
theorem sync_follow_iff_witness :
    ALP.async_update true false true 2 (some ⟨70, 3000, [1, 2]⟩) (50, 4000) =
      some { current_brightness := 70, current_color_temp := 3000
             engine_invoked := false, sync := some ⟨70, 3000, [1, 2]⟩ } ∧
    ALP.async_update true false true 1 (some ⟨0, 0, [1, 2]⟩) (50, 4000) =
      some { current_brightness := 50, current_color_temp := 4000
             engine_invoked := true
             sync := some { (⟨0, 0, [1, 2]⟩ : ALP.SyncData) with
                              brightness := 50, color_temp := 4000 } } :=
  ⟨(sync_follow_iff 2 ⟨70, 3000, [1, 2]⟩ (50, 4000) (by decide)).1 (by decide),
   (sync_follow_iff 1 ⟨0, 0, [1, 2]⟩ (50, 4000) (by decide)).2 (by decide)⟩

/-- C7, confirmed.  The sun-data normalization: (1) a next-sunrise in the future
has one day subtracted, otherwise it is kept; (2) a next-sunset in the future
with elevation `≤ 0` has one day subtracted; (3) else a sunset earlier than the
(already adjusted) sunrise has one day added, otherwise it is kept; (4) the
configured offsets are added only after these adjustments; elevation passes
through. -/
theorem sun_normalization_rules (now : ℤ) (e : ℚ) (r s roff soff : ℤ) :
    (now < r →
      (ALP.get_sun_data now e (some r) (some s) roff soff).1 =
        some (r - ALP.oneDay + roff)) ∧
    (r ≤ now →
      (ALP.get_sun_data now e (some r) (some s) roff soff).1 = some (r + roff)) ∧
    (now < s ∧ e ≤ 0 →
      (ALP.get_sun_data now e (some r) (some s) roff soff).2.1 =
        some (s - ALP.oneDay + soff)) ∧
    (¬ (now < s ∧ e ≤ 0) → s < (if now < r then r - ALP.oneDay else r) →
      (ALP.get_sun_data now e (some r) (some s) roff soff).2.1 =
        some (s + ALP.oneDay + soff)) ∧
    (¬ (now < s ∧ e ≤ 0) → (if now < r then r - ALP.oneDay else r) ≤ s →
      (ALP.get_sun_data now e (some r) (some s) roff soff).2.1 = some (s + soff)) ∧
    (ALP.get_sun_data now e (some r) (some s) roff soff).2.2 = e := by
  refine ⟨?_, ?_, ?_, ?_, ?_, ?_⟩
  · intro h
    simp [ALP.get_sun_data, h]
  · intro h
    have h2 : ¬ (now < r) := not_lt.mpr h
    simp [ALP.get_sun_data, h2]
  · intro h
    by_cases hr : now < r <;> simp [ALP.get_sun_data, hr, h.1, h.2]
  · intro h hlt
    by_cases hr : now < r
    · rw [if_pos hr] at hlt
      simp [ALP.get_sun_data, hr, h, hlt]
    · rw [if_neg hr] at hlt
      simp [ALP.get_sun_data, hr, h, hlt]
  · intro h hle
    by_cases hr : now < r
    · rw [if_pos hr] at hle
      have h2 : ¬ (s < r - ALP.oneDay) := not_lt.mpr hle
      simp [ALP.get_sun_data, hr, h, h2]
    · rw [if_neg hr] at hle
      have h2 : ¬ (s < r) := not_lt.mpr hle
      simp [ALP.get_sun_data, hr, h, h2]
  · by_cases hr : now < r <;> by_cases hs : now < s ∧ e ≤ 0 <;>
      simp [ALP.get_sun_data, hr, hs]

/-- C7 witness: at time 1000 with a future sunrise 1100, future sunset 1200 and
elevation -5, both references move back one day before the offsets +10 / -10. -/
theorem sun_normalization_rules_witness :
    (ALP.get_sun_data 1000 (-5) (some 1100) (some 1200) 10 (-10)).1 =
      some (1100 - ALP.oneDay + 10) ∧
    (ALP.get_sun_data 1000 (-5) (some 1100) (some 1200) 10 (-10)).2.1 =
      some (1200 - ALP.oneDay + (-10)) :=
  ⟨(sun_normalization_rules 1000 (-5) 1100 1200 10 (-10)).1 (by decide),
   (sun_normalization_rules 1000 (-5) 1100 1200 10 (-10)).2.2.1 ⟨by decide, by decide⟩⟩

/-- C8, confirmed.  With elevation `≤ 0` the factor computation returns
circadian = solar = time_based = 0, and day progress 0 before the sunrise
reference, else 1 (also 1 when no sunrise reference exists). -/
theorem night_factors_zero (now : ℤ) (sunrise sunset : Option ℤ) (e : ℚ)
    (he : e ≤ 0) :
    ALP.calculate_factors now sunrise sunset e =
      (0, 0, 0,
        match sunrise with
        | some r => if now < r then (0 : ℝ) else 1
        | none => 1) := by
  unfold ALP.calculate_factors
  rw [if_pos he]

/-- C8 witness: pre-dawn (elevation -5, now before the sunrise reference). -/
theorem night_factors_zero_witness :
    ALP.calculate_factors 100 (some 200) (some 500) (-5) = (0, 0, 0, 0) := by
  have h := night_factors_zero 100 (some 200) (some 500) (-5) (by decide)
  have h2 : ((100 : ℤ) < 200) := by decide
  simpa [h2] using h

/-- C9, confirmed.  With sleep mode active the value calculation returns exactly
the configured sleep brightness and sleep color temperature, for every
combination of modes, min/max ranges and factor values — the min/max mapping is
bypassed entirely. -/
theorem sleep_mode_exact_output (brightness_mode color_temp_mode : String)
    (sleep_brightness sleep_color_temp : ℤ)
    (min_brightness max_brightness min_color_temp max_color_temp : ℤ)
    (circadian solar time_based : ℚ) :
    ALP.calculate_values brightness_mode color_temp_mode true
      sleep_brightness sleep_color_temp
      min_brightness max_brightness min_color_temp max_color_temp
      circadian solar time_based = (sleep_brightness, sleep_color_temp) := rfl

/-- C10, confirmed.  When no `LastApplied` record exists for the light, the
`light_changed` callback never arms the manual override, whatever the observed
states and configuration. -/
theorem no_last_applied_never_arms (enabled detect_override : Bool)
    (timeout t : ℤ) (old_state new_state : Option ALP.ObservedState) :
    ALP.light_changed enabled detect_override timeout old_state new_state none ≠
      ALP.LightAction.armOverride t := by
  rcases new_state with _ | ns <;> rcases old_state with _ | os <;>
    simp only [ALP.light_changed] <;> split_ifs <;> simp

/-- C10 witness: a large external-looking change with no record arms nothing. -/
theorem no_last_applied_never_arms_witness :
    ALP.light_changed true true 30 (some ⟨"on", some 0, some 0, false⟩)
      (some ⟨"on", some 99, some 99, false⟩) none ≠
      ALP.LightAction.armOverride 30 :=
  no_last_applied_never_arms true true 30 30 _ _

end ALP
